import Mathlib

/-!
# Verification of the Bitcoin Proof-of-Value authentication subsystem

Shallow embedding of the Bitcoin challenge/verify login flow of `src/routes.rs`
(`bitcoin_challenge`, `bitcoin_verify`, `verify_bitcoin_message`,
`fetch_btc_balance_sats`), of the JWT issuance helpers of `src/auth.rs`
(`create_jwt`, `create_bitcoin_jwt`) and of the error→HTTP-status mapping of
`src/error.rs` (`ApiError::error_response`).

Bytes are modelled as `Nat` values below 256; machine integers as `Nat` with
explicit `% 2^w` where overflow can matter.  External library functions that
the handlers call are treated as follows:

* `sha2::Sha256` is implemented concretely (FIPS 180-4), since the base58check
  address decoding needs to evaluate real checksums;
* `bitcoin::Address::from_str` (rust-bitcoin 0.30) is implemented concretely
  as base58check + bech32/bech32m decoding (`addressFromStr`);
* secp256k1 public-key recovery, `base64` decoding and `hash160` are opaque
  parameters collected in a `CryptoEnv` record — every theorem about the
  verifier is universally quantified over them;
* the process environment (`std::env::var`) is an explicit association list;
* HTTP responses of the two balance oracles are explicit inputs (`HttpWorld`).
-/

set_option maxRecDepth 40000

namespace Rib

/-! ## 32-bit word arithmetic and SHA-256 (FIPS 180-4), used by `sha2::Sha256` -/

def U32MOD : Nat := 4294967296

def U64MOD : Nat := 18446744073709551616

def w32 (n : Nat) : Nat := n % U32MOD

/-- Rotate a 32-bit word right by `n` (for `x < 2^32`, `n ≤ 32`). -/
def rotr32 (x n : Nat) : Nat := w32 ((x >>> n) ||| (x <<< (32 - n)))

/-- The 64 SHA-256 round constants of FIPS 180-4 §4.2.2, in decimal. -/
def sha256K : List Nat :=
  [1116352408, 1899447441, 3049323471, 3921009573, 961987163, 1508970993,
   2453635748, 2870763221, 3624381080, 310598401, 607225278, 1426881987,
   1925078388, 2162078206, 2614888103, 3248222580, 3835390401, 4022224774,
   264347078, 604807628, 770255983, 1249150122, 1555081692, 1996064986,
   2554220882, 2821834349, 2952996808, 3210313671, 3336571891, 3584528711,
   113926993, 338241895, 666307205, 773529912, 1294757372, 1396182291,
   1695183700, 1986661051, 2177026350, 2456956037, 2730485921, 2820302411,
   3259730800, 3345764771, 3516065817, 3600352804, 4094571909, 275423344,
   430227734, 506948616, 659060556, 883997877, 958139571, 1322822218,
   1537002063, 1747873779, 1955562222, 2024104815, 2227730452, 2361852424,
   2428436474, 2756734187, 3204031479, 3329325298]

/-- The initial SHA-256 hash state of FIPS 180-4 §5.3.3, in decimal. -/
def sha256InitH : List Nat :=
  [1779033703, 3144134277, 1013904242, 2773480762, 1359893119, 2600822924,
   528734635, 1541459225]

/-- Big-endian bytes of `n`, exactly `k` bytes wide. -/
def natToBeBytes : Nat → Nat → List Nat
  | 0, _ => []
  | k + 1, n => natToBeBytes k (n / 256) ++ [n % 256]

/-- Group a byte list into big-endian 32-bit words (length assumed a multiple of 4). -/
def bytesToWordsBE : List Nat → List Nat
  | a :: b :: c :: d :: rest => (a * 16777216 + b * 65536 + c * 256 + d) :: bytesToWordsBE rest
  | _ => []

/-- SHA-256 padding: append `0x80`, zero bytes, then the 64-bit big-endian bit length. -/
def sha256Pad (msg : List Nat) : List Nat :=
  let l := msg.length
  let z := (64 + 56 - (l + 1) % 64) % 64
  msg ++ [128] ++ List.replicate z 0 ++ natToBeBytes 8 (l * 8)

def sha256s0 (x : Nat) : Nat := (rotr32 x 7) ^^^ (rotr32 x 18) ^^^ (x >>> 3)

def sha256s1 (x : Nat) : Nat := (rotr32 x 17) ^^^ (rotr32 x 19) ^^^ (x >>> 10)

/-- Extend the 16-word schedule by `n` additional words. -/
def sha256Extend : Nat → List Nat → List Nat
  | 0, ws => ws
  | n + 1, ws =>
    let k := ws.length
    let nw := w32 (ws.getD (k - 16) 0 + sha256s0 (ws.getD (k - 15) 0) +
                   ws.getD (k - 7) 0 + sha256s1 (ws.getD (k - 2) 0))
    sha256Extend n (ws ++ [nw])

def sha256Ch (e f g : Nat) : Nat := (e &&& f) ^^^ ((4294967295 ^^^ e) &&& g)

def sha256Maj (a b c : Nat) : Nat := (a &&& b) ^^^ (a &&& c) ^^^ (b &&& c)

def sha256S0 (a : Nat) : Nat := (rotr32 a 2) ^^^ (rotr32 a 13) ^^^ (rotr32 a 22)

def sha256S1 (e : Nat) : Nat := (rotr32 e 6) ^^^ (rotr32 e 11) ^^^ (rotr32 e 25)

/-- The 64 compression rounds; the state is the 8-word list `[a,b,c,d,e,f,g,h]`. -/
def sha256Rounds : List (Nat × Nat) → List Nat → List Nat
  | [], st => st
  | (k, w) :: rest, st =>
    match st with
    | [a, b, c, d, e, f, g, h] =>
      let t1 := w32 (h + sha256S1 e + sha256Ch e f g + k + w)
      let t2 := w32 (sha256S0 a + sha256Maj a b c)
      sha256Rounds rest [w32 (t1 + t2), a, b, c, w32 (d + t1), e, f, g]
    | _ => st

/-- Split a byte list into 64-byte chunks (structural recursion on a fuel
bound, so that the kernel can evaluate it; `fuel ≥ l.length` always holds on
the calls made). -/
def chunks64Go : Nat → List Nat → List (List Nat)
  | _, [] => []
  | 0, _ :: _ => []
  | fuel + 1, a :: l => ((a :: l).take 64) :: chunks64Go fuel ((a :: l).drop 64)

def chunks64 (l : List Nat) : List (List Nat) := chunks64Go l.length l

def sha256Block (hv : List Nat) (block : List Nat) : List Nat :=
  let ws := sha256Extend 48 (bytesToWordsBE block)
  let st := sha256Rounds (sha256K.zip ws) hv
  (hv.zip st).map (fun p => w32 (p.1 + p.2))

/-- SHA-256 of a byte list, as a 32-byte list. -/
def sha256 (msg : List Nat) : List Nat :=
  let hv := (chunks64 (sha256Pad msg)).foldl sha256Block sha256InitH
  hv.foldr (fun w acc => natToBeBytes 4 w ++ acc) []

/-- UTF-8 bytes of a string (what Rust's `str::as_bytes`/`str::len` see);
byte-for-byte the definition of `String.toUTF8`. -/
def utf8Bytes (s : String) : List Nat :=
  (s.data.flatMap String.utf8EncodeChar).map UInt8.toNat

/-! ## The address data model of rust-bitcoin 0.30 (`bitcoin::Address`)

`Address { payload, network }` with `Payload` one of `PubkeyHash`,
`ScriptHash`, `WitnessProgram`.  `Address::from_str` decodes base58check for
legacy addresses and bech32/bech32m for segwit addresses; it accepts *any*
of these payload kinds and *any* of the three networks. -/

inductive Network where
  | bitcoin
  | testnet
  | regtest
deriving DecidableEq, Repr

inductive Payload where
  | pubkeyHash (h : List Nat)
  | scriptHash (h : List Nat)
  | witnessProgram (version : Nat) (program : List Nat)
deriving DecidableEq, Repr

structure BtcAddress where
  payload : Payload
  network : Network
deriving DecidableEq, Repr

/-! ### Base58check decoding (legacy addresses) -/

def base58Alphabet : List Char :=
  "123456789ABCDEFGHJKLMNPQRSTUVWXYZabcdefghijkmnopqrstuvwxyz".data

def base58Val (c : Char) : Option Nat := base58Alphabet.findIdx? (fun a => a == c)

/-- Interpret base58 digits as a big-endian number; `none` on a non-alphabet char. -/
def base58DecodeNum (cs : List Char) : Option Nat :=
  cs.foldl (fun acc c => acc.bind (fun n => (base58Val c).map (fun v => n * 58 + v))) (some 0)

def countLeadingOnes : List Char → Nat
  | '1' :: rest => countLeadingOnes rest + 1
  | _ => 0

/-- Minimal big-endian byte representation (empty for 0), via structural
fuel recursion (`n` itself bounds the number of digits). -/
def natToBytesGo : Nat → Nat → List Nat
  | 0, _ => []
  | fuel + 1, n => if n = 0 then [] else natToBytesGo fuel (n / 256) ++ [n % 256]

def natToBytesStripped (n : Nat) : List Nat := natToBytesGo n n

/-- Base58check decode of a 25-byte legacy address: verify the 4-byte double-SHA256
checksum and return the 21-byte payload (version byte + 20-byte hash). -/
def base58CheckDecode (s : String) : Option (List Nat) :=
  if s.length > 50 then none
  else
    match base58DecodeNum s.data with
    | none => none
    | some n =>
      let raw := List.replicate (countLeadingOnes s.data) 0 ++ natToBytesStripped n
      if raw.length = 25 then
        if (sha256 (sha256 (raw.take 21))).take 4 = raw.drop 21 then some (raw.take 21)
        else none
      else none

/-- Legacy address decoding: version byte 0/5 are mainnet P2PKH/P2SH,
111/196 the testnet counterparts; anything else is rejected. -/
def addressFromBase58 (s : String) : Option BtcAddress :=
  match base58CheckDecode s with
  | none => none
  | some payload =>
    let hash := payload.drop 1
    match payload.headD 0 with
    | 0 => some ⟨.pubkeyHash hash, .bitcoin⟩
    | 5 => some ⟨.scriptHash hash, .bitcoin⟩
    | 111 => some ⟨.pubkeyHash hash, .testnet⟩
    | 196 => some ⟨.scriptHash hash, .testnet⟩
    | _ => none

/-! ### Bech32 / bech32m decoding (segwit addresses) -/

def bech32Charset : List Char := "qpzry9x8gf2tvdw0s3jn54khce6mua7l".data

def bech32Val (c : Char) : Option Nat := bech32Charset.findIdx? (fun a => a == c)

def bech32Gen : List Nat := [0x3b6a57b2, 0x26508e6d, 0x1ea119fa, 0x3d4233dd, 0x2a1462b3]

def bech32PolymodStep (chk v : Nat) : Nat :=
  let b := chk >>> 25
  let chk1 := (((chk &&& 0x1ffffff) <<< 5) ^^^ v)
  (List.range 5).foldl
    (fun c i => if (b >>> i) &&& 1 = 1 then c ^^^ bech32Gen.getD i 0 else c) chk1

def bech32Polymod (values : List Nat) : Nat := values.foldl bech32PolymodStep 1

def bech32HrpExpand (hrp : List Char) : List Nat :=
  hrp.map (fun c => c.toNat >>> 5) ++ [0] ++ hrp.map (fun c => c.toNat &&& 31)

def BECH32_CONST : Nat := 1

def BECH32M_CONST : Nat := 0x2bc830a3

/-- Split at the last separator character of the bech32 string. -/
def splitLastSep (cs : List Char) : Option (List Char × List Char) :=
  match cs.reverse.findIdx? (fun c => c == '1') with
  | none => none
  | some j =>
    let pos := cs.length - 1 - j
    some (cs.take pos, cs.drop (pos + 1))

/-- Regroup 5-bit groups into bytes, rejecting over-long or non-zero padding. -/
def convertBits5to8 (vals : List Nat) : Option (List Nat) :=
  let fin := vals.foldl
    (fun (st : Nat × Nat × List Nat) v =>
      let acc := (st.1 <<< 5) ||| v
      let n := st.2.1 + 5
      if n ≥ 8 then (acc, n - 8, st.2.2 ++ [(acc >>> (n - 8)) &&& 255])
      else (acc, n, st.2.2)) (0, 0, [])
  if fin.2.1 ≥ 5 then none
  else if fin.1 &&& ((1 <<< fin.2.1) - 1) ≠ 0 then none
  else some fin.2.2

/-- Bech32 string-level decoding: character-set, case and length rules,
yielding the human-readable part and the 5-bit data values (checksum included). -/
def bech32Decode (s : String) : Option (List Char × List Nat) :=
  let cs := s.data
  if cs.length > 90 then none
  else if cs.any (fun c => c.toNat < 33 || c.toNat > 126) then none
  else if cs.any Char.isLower && cs.any Char.isUpper then none
  else
    let lower := cs.map Char.toLower
    match splitLastSep lower with
    | none => none
    | some (hrp, dat) =>
      if hrp.isEmpty then none
      else if dat.length < 6 then none
      else
        match dat.mapM bech32Val with
        | none => none
        | some vals => some (hrp, vals)

/-- Segwit address decoding per rust-bitcoin 0.30: hrp selects the network,
the first data value is the witness version (bech32 checksum for v0,
bech32m for v1+), the rest converts 5→8 bits into the witness program,
whose length must be 2–40 bytes and, for v0, exactly 20 or 32. -/
def addressFromBech32 (s : String) : Option BtcAddress :=
  match bech32Decode s with
  | none => none
  | some (hrp, vals) =>
    let network : Option Network :=
      if hrp = ['b', 'c'] then some .bitcoin
      else if hrp = ['t', 'b'] then some .testnet
      else if hrp = ['b', 'c', 'r', 't'] then some .regtest
      else none
    match network with
    | none => none
    | some netw =>
      let pm := bech32Polymod (bech32HrpExpand hrp ++ vals)
      match vals.take (vals.length - 6) with
      | [] => none
      | ver :: rest =>
        if ver > 16 then none
        else if (if ver = 0 then pm ≠ BECH32_CONST else pm ≠ BECH32M_CONST) then none
        else
          match convertBits5to8 rest with
          | none => none
          | some program =>
            if program.length < 2 ∨ program.length > 40 then none
            else if ver = 0 ∧ program.length ≠ 20 ∧ program.length ≠ 32 then none
            else some ⟨.witnessProgram ver program, netw⟩

/-- Does the string carry a bech32 human-readable part (`bc1`/`tb1`/`bcrt1`,
case-insensitively)?  rust-bitcoin's `Address::from_str` uses this to choose
between the bech32 and the base58 decoder. -/
def looksBech32 (s : String) : Bool :=
  let l := s.data.map Char.toLower
  l.take 3 = ['b', 'c', '1'] || l.take 3 = ['t', 'b', '1'] || l.take 5 = ['b', 'c', 'r', 't', '1']

/-- Model of `bitcoin::Address::from_str` (rust-bitcoin 0.30): parses legacy
base58check and segwit bech32 addresses of any supported payload kind and any
network; `none` models a parse error. -/
def addressFromStr (s : String) : Option BtcAddress :=
  if looksBech32 s then addressFromBech32 s else addressFromBase58 s

/-! ## The ambient process environment (`std::env::var`) -/

/-- The process environment, as an association list of variables. -/
abbrev EnvMap := List (String × String)

def envVar (env : EnvMap) (name : String) : Option String :=
  (env.find? (fun p => p.1 == name)).map (fun p => p.2)

/-- `std::env::var(name).ok().map(|v| v=="1"||v=="true").unwrap_or(false)`
(the shape both bypass flags are read with in `bitcoin_verify`). -/
def envFlag (env : EnvMap) (name : String) : Bool :=
  match envVar env name with
  | some v => v == "1" || v == "true"
  | none => false

/-- Model of Rust `u64::from_str`: optional leading `+`, at least one ASCII
digit, value below `2^64`. -/
def rustParseU64 (s : String) : Option Nat :=
  let digits := match s.data with
    | '+' :: rest => rest
    | cs => cs
  if digits.isEmpty then none
  else if digits.all Char.isDigit then
    let n := digits.foldl (fun acc c => acc * 10 + (c.toNat - 48)) 0
    if n < U64MOD then some n else none
  else none

/-! ## JSON values, as far as `fetch_btc_balance_sats` inspects them -/

/-- A `serde_json::Value`, abstracted to what the balance-fetch code observes:
arrays, objects, numbers representable as `u64`, and everything else. -/
inductive Json where
  | arr (xs : List Json)
  | obj (fields : List (String × Json))
  | u64val (n : Nat)
  | other

/-- `Value::as_array`. -/
def Json.asArray : Json → Option (List Json)
  | .arr xs => some xs
  | _ => none

/-- `Value::get(key)`: field lookup on objects, `None` on anything else. -/
def Json.getField : Json → String → Option Json
  | .obj fields, key => (fields.find? (fun p => p.1 == key)).map (fun p => p.2)
  | _, _ => none

/-- `Value::as_u64`. -/
def Json.asU64 : Json → Option Nat
  | .u64val n => some n
  | _ => none

/-- The satoshi contribution of one primary-oracle UTXO entry:
`u.get("value").and_then(|v| v.as_u64())`, or 0 when absent. -/
def utxoValue (u : Json) : Nat := ((u.getField "value").bind Json.asU64).getD 0

/-- Sum of the `value` fields of a UTXO-list JSON body, per the loop in
`fetch_btc_balance_sats` (`total += v` on `u64`, hence reduced `% 2^64`);
a non-array body contributes nothing and yields 0. -/
def sumUtxos (j : Json) : Nat :=
  match j.asArray with
  | some arr => arr.foldl (fun total u => (total + utxoValue u) % U64MOD) 0
  | none => 0

/-! ## The two external balance services -/

/-- One HTTP exchange: `netErr` models a failed `send()`, otherwise a status
(success or not) plus the result of parsing the body as JSON
(`Except.error` models a `reqwest` body/JSON decode failure). -/
inductive HttpResp where
  | netErr
  | resp (success : Bool) (body : Except Unit Json)

/-- The responses the two balance services would give to this request:
`primary` is the Blockstream-style UTXO list endpoint, `fallback` the
BlockCypher-style aggregate balance endpoint. -/
structure HttpWorld where
  primary : HttpResp
  fallback : HttpResp

/-- Serde deserialization of the fallback's `BalanceResp { final_balance: u64 }`. -/
def parseBalanceResp (j : Json) : Option Nat := (j.getField "final_balance").bind Json.asU64

/-- Whether a response fails in the way that makes `fetch_btc_balance_sats`
give up on that source (network error or non-success status). -/
def respFailed : HttpResp → Bool
  | .netErr => true
  | .resp success _ => !success

/-- Model of `fetch_btc_balance_sats` (src/routes.rs:1161-1184).

1. A parseable `BTC_AUTH_TEST_BALANCE_OVERRIDE` env value short-circuits.
2. Otherwise, if the primary endpoint answers with a success status, the body
   is parsed as JSON (a parse failure propagates as an error via `?`) and the
   UTXO `value` fields are summed.
3. Otherwise the fallback endpoint is queried: its send/status/body failures
   are errors, else its `final_balance` field is returned. -/
def fetch_btc_balance_sats (env : EnvMap) (world : HttpWorld) (_address : String) :
    Except Unit Nat :=
  match (envVar env "BTC_AUTH_TEST_BALANCE_OVERRIDE").bind rustParseU64 with
  | some sats => .ok sats
  | none =>
    match world.primary with
    | .resp true body =>
      (match body with
       | .ok j => .ok (sumUtxos j)
       | .error _ => .error ())
    | _ =>
      match world.fallback with
      | .netErr => .error ()
      | .resp success body =>
        if success then
          match body with
          | .ok j =>
            (match parseBalanceResp j with
             | some n => .ok n
             | none => .error ())
          | .error _ => .error ()
        else .error ()

/-! ## The message verifier (`verify_bitcoin_message`, src/routes.rs:1087-1159) -/

/-- A recovered secp256k1 public key, by its two SEC serializations. -/
structure PubKey where
  compressed : List Nat
  uncompressed : List Nat

/-- The opaque cryptographic collaborators of the verifier.  `b64decode`
models the `base64` STANDARD engine; `parseCompactOk` whether
`RecoverableSignature::from_compact(sig64, recid)` succeeds; `recover` models
`secp.recover_ecdsa(digest, sig)` for the signature built from `(sig64,
recid)`; `hash160` the `bitcoin_hashes` HASH160 = RIPEMD160 ∘ SHA256. -/
structure CryptoEnv where
  b64decode : String → Option (List Nat)
  parseCompactOk : List Nat → Nat → Bool
  recover : List Nat → List Nat → Nat → Option PubKey
  hash160 : List Nat → List Nat

/-- The internal (never caller-visible) failure reasons of the verifier,
one per `bail!`/`?` site in `verify_bitcoin_message`. -/
inductive VerifyErr where
  | b64Decode
  | sigLength
  | badHeader
  | sigParse
  | recoverFail
  | addrParse
  | addrMismatch
  | unsupportedWitness
  | segwitUncompressed
  | unsupportedAddrType
  | wrongNetwork
deriving DecidableEq, Repr

/-- The magic literal of the legacy Bitcoin signed-message convention. -/
def MAGIC : String := "Bitcoin Signed Message:\n"

/-- The in-file `ser_varint` helper of `verify_bitcoin_message`: one byte for
lengths below 253, otherwise the marker 253 followed by a fixed 3-byte
little-endian field — regardless of how large `n` is. -/
def ser_varint (n : Nat) : List Nat :=
  if n < 253 then [n]
  else [253, n &&& 255, (n >>> 8) &&& 255, (n >>> 16) &&& 255]

/-- The signing preimage: length-prefixed magic, then length-prefixed message. -/
def msgPreimage (message : String) : List Nat :=
  [(utf8Bytes MAGIC).length] ++ utf8Bytes MAGIC ++
    ser_varint (utf8Bytes message).length ++ utf8Bytes message

/-- The digest that is actually signed: double SHA-256 of the preimage.
(`Message::from_digest_slice` only rejects digests that are not 32 bytes,
which a SHA-256 output always is.) -/
def signedDigest (message : String) : List Nat := sha256 (sha256 (msgPreimage message))

/-- Steps 4–5 of the verifier, after public-key recovery: compare the derived
HASH160 against the address payload (per address kind), then require mainnet. -/
def matchPayload (env : CryptoEnv) (addr : BtcAddress) (isCompressed : Bool)
    (pubkey : PubKey) : Except VerifyErr Unit :=
  let pk_bytes := if isCompressed then pubkey.compressed else pubkey.uncompressed
  match addr.payload with
  | .pubkeyHash pkh =>
    if env.hash160 pk_bytes ≠ pkh then .error .addrMismatch else .ok ()
  | .witnessProgram ver prog =>
    if ver ≠ 0 ∨ prog.length ≠ 20 then .error .unsupportedWitness
    else if !isCompressed then .error .segwitUncompressed
    else if env.hash160 pubkey.compressed ≠ prog then .error .addrMismatch
    else .ok ()
  | .scriptHash _ => .error .unsupportedAddrType

def verifyRecovered (env : CryptoEnv) (addr : BtcAddress) (isCompressed : Bool)
    (pubkey : PubKey) : Except VerifyErr Unit :=
  match matchPayload env addr isCompressed pubkey with
  | .error e => .error e
  | .ok _ => if addr.network ≠ Network.bitcoin then .error .wrongNetwork else .ok ()

/-- The verifier tail once the 65-byte signature has been split into the
recovery id, the compressed flag and the 64 `(r,s)` bytes. -/
def verifyAfterHeader (env : CryptoEnv) (address message : String) (recId : Nat)
    (isCompressed : Bool) (sig64 : List Nat) : Except VerifyErr Unit :=
  if !env.parseCompactOk sig64 recId then .error .sigParse
  else
    match env.recover (signedDigest message) sig64 recId with
    | none => .error .recoverFail
    | some pubkey =>
      match addressFromStr address with
      | none => .error .addrParse
      | some addr => verifyRecovered env addr isCompressed pubkey

/-- Model of `verify_bitcoin_message`: base64-decode the signature, require 65
bytes and header byte in 27..=34, derive `(recovery_id, compressed)` from the
header, then recover the key and match it against the address. -/
def verify_bitcoin_message (env : CryptoEnv) (address message signature_b64 : String) :
    Except VerifyErr Unit :=
  match env.b64decode signature_b64 with
  | none => .error .b64Decode
  | some raw =>
    if raw.length ≠ 65 then .error .sigLength
    else if raw.headD 0 < 27 ∨ raw.headD 0 > 34 then .error .badHeader
    else
      verifyAfterHeader env address message ((raw.headD 0 - 27) &&& 3)
        (((raw.headD 0 - 27) &&& 4) != 0) (raw.drop 1)

/-! ## JWT issuance (src/auth.rs) -/

inductive Role where
  | user
  | moderator
  | admin
deriving DecidableEq, Repr

/-- The `Claims` a token encodes.  The HS256 encoding itself is opaque and
injective on claims, so the token is modelled by its claims. -/
structure Claims where
  sub : String
  exp : Nat
  roles : List Role
deriving DecidableEq, Repr

/-- Model of Rust `str::contains(char)`. -/
def strContainsChar (s : String) (c : Char) : Bool := s.data.any (fun a => a == c)

/-- Model of `create_jwt` (src/auth.rs:68-91): a composite subject is kept
as-is when `user_id` already holds a colon, and the expiry is a fixed 24 hours
from now (`nowSecs` is `chrono::Utc::now().timestamp()`). -/
def create_jwt (nowSecs : Nat) (user_id username : String) (roles : List Role) : Claims :=
  { sub := if strContainsChar user_id ':' then user_id else user_id ++ ":" ++ username
    exp := nowSecs + 24 * 3600
    roles := roles }

/-- Model of `create_bitcoin_jwt` (src/auth.rs:94-97): subject `"btc:<address>"`. -/
def create_bitcoin_jwt (nowSecs : Nat) (address : String) (roles : List Role) : Claims :=
  create_jwt nowSecs ("btc:" ++ address) address roles

/-! ## The error taxonomy (src/error.rs) -/

inductive ApiError where
  | notFound
  | conflict
  | internal
  | forbidden
  | insufficientFunds
  | badRequest
  | rateLimited (retry_after : Nat)
deriving DecidableEq, Repr

/-- The HTTP status `ApiError::error_response` (src/error.rs:38-55) replies with. -/
def error_response_status : ApiError → Nat
  | .notFound => 404
  | .conflict => 409
  | .internal => 500
  | .forbidden => 403
  | .insufficientFunds => 403
  | .badRequest => 400
  | .rateLimited _ => 429

/-! ## The challenge store and the two handlers (src/routes.rs:979-1085)

`BTC_CHALLENGES` is a map address → (challenge text, issued-at `SystemTime`);
time is in nanoseconds, matching `SystemTime`/`Duration` precision. -/

abbrev ChallengeMap := String → Option (String × Nat)

def emptyChallenges : ChallengeMap := fun _ => none

def mapInsert (m : ChallengeMap) (k : String) (v : String × Nat) : ChallengeMap :=
  fun q => if q = k then some v else m q

def mapRemove (m : ChallengeMap) (k : String) : ChallengeMap :=
  fun q => if q = k then none else m q

def BTC_CHALLENGE_TTL_SECS : Nat := 300

def BTC_MIN_BALANCE_SATS : Nat := 1000000

def NANOS_PER_SEC : Nat := 1000000000

/-- `issued.elapsed().unwrap_or_default()`: the elapsed time since `issued`,
and zero when the clock stands before `issued` (`SystemTime::elapsed` errors
then and `unwrap_or_default` yields `Duration::ZERO`); never a panic. -/
def elapsedNanos (now issued : Nat) : Nat := if issued ≤ now then now - issued else 0

/-- Model of Rust `str::trim`: strip leading and trailing whitespace. -/
def rustTrim (s : String) : String :=
  ⟨((s.data.dropWhile Char.isWhitespace).reverse.dropWhile Char.isWhitespace).reverse⟩

/-- What a challenge-request replies: the challenge text, or an error. -/
inductive ChallengeOutcome where
  | ok (challenge : String)
  | err (e : ApiError)
deriving DecidableEq, Repr

def challengeText (address nonce_hex : String) : String :=
  "Prove you own Bitcoin address " ++ address ++ " (nonce " ++ nonce_hex ++ ")"

/-- Model of `bitcoin_challenge` (src/routes.rs:1010-1028): trim, require
non-empty and 26–100 bytes, require `Address::from_str` to succeed, then
store `(text, now)` for the address, displacing any prior challenge.
`nonce_hex` stands for the hex of the 32 random bytes drawn by the handler. -/
def bitcoin_challenge (payload_address nonce_hex : String) (now : Nat)
    (st : ChallengeMap) : ChallengeOutcome × ChallengeMap :=
  if (rustTrim payload_address).data.isEmpty then (.err .badRequest, st)
  else if (rustTrim payload_address).utf8ByteSize < 26 ∨
      (rustTrim payload_address).utf8ByteSize > 100 then (.err .badRequest, st)
  else if (addressFromStr (rustTrim payload_address)).isNone then (.err .badRequest, st)
  else
    (.ok (challengeText (rustTrim payload_address) nonce_hex),
     mapInsert st (rustTrim payload_address)
       (challengeText (rustTrim payload_address) nonce_hex, now))

/-- What a verify-request replies: a token (HTTP 200), `410 Gone` for an
expired challenge, or an `ApiError`. -/
inductive VerifyOutcome where
  | ok (token : Claims)
  | gone
  | err (e : ApiError)
deriving DecidableEq, Repr

/-- Everything `bitcoin_verify` consults besides the challenge map:
the ambient environment, the opaque crypto collaborators, the balance
services, `SystemTime::now()` in nanoseconds and the chrono clock in seconds. -/
structure VerifyCtx where
  env : EnvMap
  crypto : CryptoEnv
  world : HttpWorld
  nowNanos : Nat
  nowSecs : Nat

def exceptIsErr : Except VerifyErr Unit → Bool
  | .error _ => true
  | .ok _ => false

/-- The env-var-with-default minimum balance read by `bitcoin_verify`:
`BTC_MIN_BALANCE_SATS` parsed as `u64`, else the 1,000,000-sat default. -/
def effectiveMinBalance (env : EnvMap) : Nat :=
  ((envVar env "BTC_MIN_BALANCE_SATS").bind rustParseU64).getD BTC_MIN_BALANCE_SATS

/-- The part of `bitcoin_verify` that runs after the challenge has been
removed from the map: TTL check (410 Gone), then — unless the respective
ambient-environment flag skips it — signature verification (any failure a
single `BadRequest`), then the balance check (shortfall `InsufficientFunds`,
oracle failure `Internal`), then JWT issuance with role `User`. -/
def verifyStep (ctx : VerifyCtx) (address signature challenge : String)
    (issued : Nat) : VerifyOutcome :=
  if elapsedNanos ctx.nowNanos issued > BTC_CHALLENGE_TTL_SECS * NANOS_PER_SEC then .gone
  else
    let skip_balance := envFlag ctx.env "BTC_AUTH_TEST_SKIP_BALANCE"
    let test_skip_sig := envFlag ctx.env "BTC_AUTH_TEST_SKIP_SIG"
    let min_balance := effectiveMinBalance ctx.env
    if !test_skip_sig && exceptIsErr (verify_bitcoin_message ctx.crypto address challenge signature) then
      .err .badRequest
    else if !skip_balance then
      match fetch_btc_balance_sats ctx.env ctx.world address with
      | .ok sats =>
        if sats ≥ min_balance then .ok (create_bitcoin_jwt ctx.nowSecs address [Role.user])
        else .err .insufficientFunds
      | .error _ => .err .internal
    else .ok (create_bitcoin_jwt ctx.nowSecs address [Role.user])

/-- Model of `bitcoin_verify` (src/routes.rs:1046-1085): retrieve **and
remove** the pending challenge (absence is `BadRequest`), then run
`verifyStep`.  All later early returns happen after the removal, so the map
update is the same in every branch. -/
def bitcoin_verify (ctx : VerifyCtx) (address signature : String)
    (st : ChallengeMap) : VerifyOutcome × ChallengeMap :=
  match st address with
  | none => (.err .badRequest, st)
  | some (challenge, issued) =>
    (verifyStep ctx address signature challenge issued, mapRemove st address)

/-- Both balance sources fail outright (primary and fallback each with a
network error or a non-success status) — the spec's "oracle exhausted both
sources" situation. -/
def bothSourcesFail (w : HttpWorld) : Bool := respFailed w.primary && respFailed w.fallback

/-- The *conventional* Bitcoin variable-length integer encoding, written from
the spec's words ("the standard's width-dependent encoding") for comparison
with the code's `ser_varint`: 1 byte below 253, then 0xfd + 2 bytes LE,
0xfe + 4 bytes LE, 0xff + 8 bytes LE. -/
def stdVarint (n : Nat) : List Nat :=
  if n < 253 then [n]
  else if n < 65536 then [253, n % 256, (n / 256) % 256]
  else if n < 4294967296 then
    [254, n % 256, (n / 256) % 256, (n / 65536) % 256, (n / 16777216) % 256]
  else
    [255, n % 256, (n / 256) % 256, (n / 65536) % 256, (n / 16777216) % 256,
     (n / 4294967296) % 256, (n / 1099511627776) % 256,
     (n / 281474976710656) % 256, (n / 72057594037927936) % 256]

/-! ## Concrete fixtures for witnesses and counterexamples -/

/-- A crypto environment under which every signature check fails at the
base64 stage.  It agrees with the real collaborators on the inputs the
witnesses use: the base64 STANDARD engine rejects `"dummy"` (length 5 is no
valid base64 length), and no recovery is ever reached. -/
def cenvToy : CryptoEnv :=
  { b64decode := fun _ => none
    parseCompactOk := fun _ _ => false
    recover := fun _ _ _ => none
    hash160 := fun _ => [] }

/-- Both balance services unreachable. -/
def worldDown : HttpWorld := ⟨.netErr, .netErr⟩

/-- Primary answers success with one UTXO worth exactly 1,000,000 sats. -/
def worldExact : HttpWorld :=
  ⟨.resp true (.ok (.arr [.obj [("value", .u64val 1000000)]])), .netErr⟩

/-- Primary answers success with a JSON body that is not an array. -/
def worldNonArray : HttpWorld := ⟨.resp true (.ok .other), .netErr⟩

/-- The deterministic P2PKH test address of tests/bitcoin_auth.rs. -/
def addrBoat : String := "1BoatSLRHtKNngkdXEeobR76b53LETtpyT"

/-- A well-formed mainnet P2SH (script-hash) address. -/
def addrScript : String := "3J98t1WpEZ73CNmQviecrnyiWrnqRhWNLy"

/-- A 29-character string that no address decoder accepts. -/
def addrJunk : String := "notanaddress-0123456789abcdef"

/-- One pending challenge for `addrBoat`, issued at time 0. -/
def stBoat : ChallengeMap := mapInsert emptyChallenges addrBoat ("challenge-text", 0)

/-- Empty ambient environment, toy crypto, services down, clocks at zero. -/
def ctxPlain : VerifyCtx :=
  { env := [], crypto := cenvToy, world := worldDown, nowNanos := 0, nowSecs := 0 }

/-- Ambient environment with both test bypass variables set to "1". -/
def ctxBypass : VerifyCtx :=
  { ctxPlain with
    env := [("BTC_AUTH_TEST_SKIP_SIG", "1"), ("BTC_AUTH_TEST_SKIP_BALANCE", "1")] }

/-- Signature check skipped, balance check live against `worldExact`. -/
def ctxBalanceExact : VerifyCtx :=
  { ctxPlain with env := [("BTC_AUTH_TEST_SKIP_SIG", "1")], world := worldExact }

/-- Signature check skipped, balance check live against `worldNonArray`. -/
def ctxBalanceNonArray : VerifyCtx :=
  { ctxPlain with env := [("BTC_AUTH_TEST_SKIP_SIG", "1")], world := worldNonArray }

/-- A context whose `SystemTime` clock stands *before* the challenge's issue
time (the clock moved backward): `nowNanos = 5` against `issued = 10^12`. -/
def ctxClockBack : VerifyCtx := { ctxBypass with nowNanos := 5 }

/-- One pending challenge for `addrBoat` issued at `10^12` ns (in the future
of `ctxClockBack`'s clock). -/
def stFuture : ChallengeMap := mapInsert emptyChallenges addrBoat ("challenge-text", 1000000000000)

/-- A context sitting far past the TTL for a challenge issued at time 0:
`nowNanos` = 301 seconds. -/
def ctxLate : VerifyCtx := { ctxBypass with nowNanos := 301 * NANOS_PER_SEC }

/-! # Theorems -/

/-! ## Shared lemmas -/

theorem mapRemove_self (m : ChallengeMap) (k : String) : mapRemove m k k = none := by
  simp [mapRemove]

theorem bitcoin_verify_absent (ctx : VerifyCtx) (address sig : String)
    (st : ChallengeMap) (h : st address = none) :
    bitcoin_verify ctx address sig st = (.err .badRequest, st) := by
  simp [bitcoin_verify, h]

theorem bitcoin_verify_pending (ctx : VerifyCtx) (address sig challenge : String)
    (issued : Nat) (st : ChallengeMap) (h : st address = some (challenge, issued)) :
    bitcoin_verify ctx address sig st =
      (verifyStep ctx address sig challenge issued, mapRemove st address) := by
  simp [bitcoin_verify, h]

/-- A sanity anchor for the SHA-256 model: the FIPS 180-4 test vector. -/
theorem sha256_abc :
    sha256 (utf8Bytes "abc") =
      [0xba, 0x78, 0x16, 0xbf, 0x8f, 0x01, 0xcf, 0xea, 0x41, 0x41, 0x40, 0xde,
       0x5d, 0xae, 0x22, 0x23, 0xb0, 0x03, 0x61, 0xa3, 0x96, 0x17, 0x7a, 0x9c,
       0xb4, 0x10, 0xff, 0x61, 0xf2, 0x00, 0x15, 0xad] := by
  decide

theorem verifyStep_fresh_not_gone (ctx : VerifyCtx) (address sig challenge : String)
    (issued : Nat)
    (h : ¬ elapsedNanos ctx.nowNanos issued > BTC_CHALLENGE_TTL_SECS * NANOS_PER_SEC) :
    verifyStep ctx address sig challenge issued ≠ .gone := by
  unfold verifyStep
  rw [if_neg h]
  cases hf : fetch_btc_balance_sats ctx.env ctx.world address with
  | ok sats =>
    simp only [hf]
    split_ifs <;> simp
  | error e =>
    simp only [hf]
    split_ifs <;> simp

theorem verifyStep_sigfail (ctx : VerifyCtx) (address sig challenge : String) (issued : Nat)
    (hfresh : elapsedNanos ctx.nowNanos issued ≤ BTC_CHALLENGE_TTL_SECS * NANOS_PER_SEC)
    (hskip : envFlag ctx.env "BTC_AUTH_TEST_SKIP_SIG" = false)
    (hverr : exceptIsErr (verify_bitcoin_message ctx.crypto address challenge sig) = true) :
    verifyStep ctx address sig challenge issued = .err .badRequest := by
  unfold verifyStep
  rw [if_neg (Nat.not_lt.mpr hfresh)]
  simp [hskip, hverr]

/-- When the signature stage passes (skipped, or verification succeeded) the
step reduces to the balance stage. -/
theorem verifyStep_sig_passes (ctx : VerifyCtx) (address sig challenge : String) (issued : Nat)
    (hfresh : elapsedNanos ctx.nowNanos issued ≤ BTC_CHALLENGE_TTL_SECS * NANOS_PER_SEC)
    (hsig : envFlag ctx.env "BTC_AUTH_TEST_SKIP_SIG" = true ∨
      verify_bitcoin_message ctx.crypto address challenge sig = .ok ()) :
    verifyStep ctx address sig challenge issued =
      (if !envFlag ctx.env "BTC_AUTH_TEST_SKIP_BALANCE" then
        match fetch_btc_balance_sats ctx.env ctx.world address with
        | .ok sats =>
          if sats ≥ effectiveMinBalance ctx.env then
            .ok (create_bitcoin_jwt ctx.nowSecs address [Role.user])
          else .err .insufficientFunds
        | .error _ => .err .internal
      else .ok (create_bitcoin_jwt ctx.nowSecs address [Role.user])) := by
  unfold verifyStep
  rw [if_neg (Nat.not_lt.mpr hfresh)]
  rcases hsig with hsig | hsig
  · simp [hsig]
  · simp [hsig, exceptIsErr]

/-- What `create_bitcoin_jwt` issues, spelled out: the composite-subject
branch of `create_jwt` fires because `"btc:<address>"` always holds a colon. -/
theorem create_bitcoin_jwt_eq (nowSecs : Nat) (address : String) (roles : List Role) :
    create_bitcoin_jwt nowSecs address roles =
      { sub := "btc:" ++ address, exp := nowSecs + 24 * 3600, roles := roles } := by
  obtain ⟨l⟩ := address
  unfold create_bitcoin_jwt create_jwt
  have hd : ("btc:" ++ String.mk l).data = 'b' :: 't' :: 'c' :: ':' :: l := rfl
  have hc : strContainsChar ("btc:" ++ String.mk l) ':' = true := by
    unfold strContainsChar
    rw [hd]
    simp
  simp [hc]

/-- If both balance sources fail outright (and no override is set), the
balance fetch is an error. -/
theorem fetch_both_fail (env : EnvMap) (world : HttpWorld) (address : String)
    (hov : envVar env "BTC_AUTH_TEST_BALANCE_OVERRIDE" = none)
    (hb : bothSourcesFail world = true) :
    fetch_btc_balance_sats env world address = .error () := by
  rcases world with ⟨p, f⟩
  simp only [bothSourcesFail, Bool.and_eq_true] at hb
  cases p with
  | netErr =>
    cases f with
    | netErr => simp [fetch_btc_balance_sats, hov]
    | resp s b =>
      have hs : s = false := by simpa [respFailed] using hb.2
      subst hs
      simp [fetch_btc_balance_sats, hov]
  | resp s b =>
    have hs : s = false := by simpa [respFailed] using hb.1
    subst hs
    cases f with
    | netErr => simp [fetch_btc_balance_sats, hov]
    | resp s2 b2 =>
      have hs2 : s2 = false := by simpa [respFailed] using hb.2
      subst hs2
      simp [fetch_btc_balance_sats, hov]

/-! ## C1 — challenges are single-use -/

/-- C1: for every address, the first `verify_and_issue` attempt removes the
pending challenge regardless of the attempt's outcome, so a second attempt
(any context, any signature) fails as BadRequest; and when the consumed
challenge was older than the TTL the first attempt answers 410 Gone
(Expired) while the subsequent attempt still answers BadRequest. -/
theorem C1_challenge_single_use (ctx : VerifyCtx) (st : ChallengeMap)
    (address sig challenge : String) (issued : Nat)
    (hpend : st address = some (challenge, issued)) :
    (bitcoin_verify ctx address sig st).2 address = none ∧
    (∀ (ctx' : VerifyCtx) (sig' : String),
        (bitcoin_verify ctx' address sig' (bitcoin_verify ctx address sig st).2).1 =
          .err .badRequest) ∧
    (elapsedNanos ctx.nowNanos issued > BTC_CHALLENGE_TTL_SECS * NANOS_PER_SEC →
        (bitcoin_verify ctx address sig st).1 = .gone) := by
  rw [bitcoin_verify_pending ctx address sig challenge issued st hpend]
  refine ⟨mapRemove_self st address, ?_, ?_⟩
  · intro ctx' sig'
    rw [bitcoin_verify_absent ctx' address sig' (mapRemove st address)
      (mapRemove_self st address)]
  · intro hexp
    simp only [verifyStep, if_pos hexp]

/-- C1 witness: a concrete fresh challenge is consumed by a successful first
attempt, and any retry fails as BadRequest. -/
theorem C1_challenge_single_use_witness :
    stBoat addrBoat = some ("challenge-text", 0) ∧
    (bitcoin_verify ctxBypass addrBoat "dummy" stBoat).2 addrBoat = none ∧
    (bitcoin_verify ctxPlain addrBoat "x" (bitcoin_verify ctxBypass addrBoat "dummy" stBoat).2).1 =
      .err .badRequest :=
  ⟨by decide,
   (C1_challenge_single_use ctxBypass stBoat addrBoat "dummy" "challenge-text" 0 (by decide)).1,
   (C1_challenge_single_use ctxBypass stBoat addrBoat "dummy" "challenge-text" 0 (by decide)).2.1
     ctxPlain "x"⟩

/-! ## C3 — every verification failure collapses to one BadRequest -/

/-- C3: whatever internal reason `e` makes `verify_bitcoin_message` fail —
base64 decode, signature length, header byte, compact-signature parse, key
recovery, address parse, address mismatch, unsupported witness program,
uncompressed segwit key, unsupported address type, wrong network — the
caller of `bitcoin_verify` sees one and the same `BadRequest` (HTTP 400),
with no trace of which step failed. -/
theorem C3_sig_failures_collapse_to_badRequest (ctx : VerifyCtx) (st : ChallengeMap)
    (address sig challenge : String) (issued : Nat) (e : VerifyErr)
    (hpend : st address = some (challenge, issued))
    (hfresh : elapsedNanos ctx.nowNanos issued ≤ BTC_CHALLENGE_TTL_SECS * NANOS_PER_SEC)
    (hskip : envFlag ctx.env "BTC_AUTH_TEST_SKIP_SIG" = false)
    (hverr : verify_bitcoin_message ctx.crypto address challenge sig = .error e) :
    (bitcoin_verify ctx address sig st).1 = .err .badRequest ∧
    error_response_status .badRequest = 400 := by
  refine ⟨?_, rfl⟩
  rw [bitcoin_verify_pending ctx address sig challenge issued st hpend]
  exact verifyStep_sigfail ctx address sig challenge issued hfresh hskip
    (by rw [hverr]; rfl)

/-- C3 witness: a signature whose base64 decoding fails yields BadRequest. -/
theorem C3_sig_failures_collapse_to_badRequest_witness :
    stBoat addrBoat = some ("challenge-text", 0) ∧
    envFlag ctxPlain.env "BTC_AUTH_TEST_SKIP_SIG" = false ∧
    verify_bitcoin_message ctxPlain.crypto addrBoat "challenge-text" "dummy" =
      .error .b64Decode ∧
    (bitcoin_verify ctxPlain addrBoat "dummy" stBoat).1 = .err .badRequest :=
  ⟨by decide, by decide, by rfl,
   (C3_sig_failures_collapse_to_badRequest ctxPlain stBoat addrBoat "dummy" "challenge-text" 0
     .b64Decode (by decide) (by decide) (by decide) (by rfl)).1⟩

/-! ## C4 — balance threshold and oracle-failure semantics -/

/-- C4: with the balance check enabled and the default threshold in force
(no `BTC_MIN_BALANCE_SATS` env override), the effective minimum is 1,000,000
sats; a measured balance exactly at the threshold passes (token issued), one
strictly below yields `InsufficientFunds` — an outcome distinct from
`BadRequest` and surfaced as HTTP 403 — and an oracle failure (in
particular, both balance sources failing) yields `Internal`, never
`InsufficientFunds`. -/
theorem C4_balance_threshold_and_oracle (ctx : VerifyCtx) (st : ChallengeMap)
    (address sig challenge : String) (issued : Nat)
    (hpend : st address = some (challenge, issued))
    (hfresh : elapsedNanos ctx.nowNanos issued ≤ BTC_CHALLENGE_TTL_SECS * NANOS_PER_SEC)
    (hsig : envFlag ctx.env "BTC_AUTH_TEST_SKIP_SIG" = true ∨
      verify_bitcoin_message ctx.crypto address challenge sig = .ok ())
    (hbal : envFlag ctx.env "BTC_AUTH_TEST_SKIP_BALANCE" = false)
    (hmin : envVar ctx.env "BTC_MIN_BALANCE_SATS" = none) :
    effectiveMinBalance ctx.env = 1000000 ∧
    (fetch_btc_balance_sats ctx.env ctx.world address = .ok 1000000 →
      (bitcoin_verify ctx address sig st).1 =
        .ok (create_bitcoin_jwt ctx.nowSecs address [Role.user])) ∧
    (∀ sats, fetch_btc_balance_sats ctx.env ctx.world address = .ok sats →
      sats < 1000000 → (bitcoin_verify ctx address sig st).1 = .err .insufficientFunds) ∧
    (fetch_btc_balance_sats ctx.env ctx.world address = .error () →
      (bitcoin_verify ctx address sig st).1 = .err .internal) ∧
    (bothSourcesFail ctx.world = true →
      envVar ctx.env "BTC_AUTH_TEST_BALANCE_OVERRIDE" = none →
      (bitcoin_verify ctx address sig st).1 = .err .internal) ∧
    error_response_status .insufficientFunds = 403 ∧
    ApiError.insufficientFunds ≠ ApiError.badRequest := by
  have hme : effectiveMinBalance ctx.env = 1000000 := by
    simp [effectiveMinBalance, hmin, BTC_MIN_BALANCE_SATS]
  have hstep : (bitcoin_verify ctx address sig st).1 =
      (if !envFlag ctx.env "BTC_AUTH_TEST_SKIP_BALANCE" then
        match fetch_btc_balance_sats ctx.env ctx.world address with
        | .ok sats =>
          if sats ≥ effectiveMinBalance ctx.env then
            .ok (create_bitcoin_jwt ctx.nowSecs address [Role.user])
          else .err .insufficientFunds
        | .error _ => .err .internal
      else .ok (create_bitcoin_jwt ctx.nowSecs address [Role.user])) := by
    rw [bitcoin_verify_pending ctx address sig challenge issued st hpend]
    exact verifyStep_sig_passes ctx address sig challenge issued hfresh hsig
  refine ⟨hme, ?_, ?_, ?_, ?_, rfl, by decide⟩
  · intro hf
    rw [hstep, hf]
    simp [hbal, hme]
  · intro sats hf hlt
    rw [hstep, hf]
    simp [hbal, hme, Nat.not_le.mpr hlt]
  · intro hf
    rw [hstep, hf]
    simp [hbal]
  · intro hbf hov
    rw [hstep, fetch_both_fail ctx.env ctx.world address hov hbf]
    simp [hbal]

/-- C4 witness: one UTXO worth exactly the default threshold passes. -/
theorem C4_balance_threshold_and_oracle_witness :
    envFlag ctxBalanceExact.env "BTC_AUTH_TEST_SKIP_BALANCE" = false ∧
    envVar ctxBalanceExact.env "BTC_MIN_BALANCE_SATS" = none ∧
    fetch_btc_balance_sats ctxBalanceExact.env ctxBalanceExact.world addrBoat = .ok 1000000 ∧
    (bitcoin_verify ctxBalanceExact addrBoat "dummy" stBoat).1 =
      .ok (create_bitcoin_jwt 0 addrBoat [Role.user]) :=
  ⟨by decide, by decide, by rfl,
   (C4_balance_threshold_and_oracle ctxBalanceExact stBoat addrBoat "dummy" "challenge-text" 0
     (by decide) (by decide) (Or.inl (by decide)) (by decide) (by decide)).2.1 (by rfl)⟩

/-! ## C5 — the bypass switches are ambient environment variables -/

/-- C5 counterexample: the outcome of `bitcoin_verify` is *not* independent
of ambient-environment settings of the bypass switches.  The very same
request (same address, same signature, same challenge state, same clocks,
same collaborators) answers BadRequest under an empty process environment
but issues a token once `BTC_AUTH_TEST_SKIP_SIG` and
`BTC_AUTH_TEST_SKIP_BALANCE` are set to `"1"` in the environment. -/
theorem C5_counterexample_env_dependence :
    (bitcoin_verify ctxPlain addrBoat "dummy" stBoat).1 = .err .badRequest ∧
    (bitcoin_verify ctxBypass addrBoat "dummy" stBoat).1 =
      .ok (create_bitcoin_jwt 0 addrBoat [Role.user]) ∧
    (bitcoin_verify ctxPlain addrBoat "dummy" stBoat).1 ≠
      (bitcoin_verify ctxBypass addrBoat "dummy" stBoat).1 := by
  refine ⟨by decide, by decide, by decide⟩

/-- C5 amended: the bypass switches are read from the ambient process
environment (`std::env::var`) inside the production `bitcoin_verify` path on
every request, and the outcome depends on them: whenever both
`BTC_AUTH_TEST_SKIP_SIG` and `BTC_AUTH_TEST_SKIP_BALANCE` are truthy in the
process environment, any signature at all yields a token for a fresh
challenge. -/
theorem C5_amended_ambient_bypass (ctx : VerifyCtx) (st : ChallengeMap)
    (address sig challenge : String) (issued : Nat)
    (hpend : st address = some (challenge, issued))
    (hfresh : elapsedNanos ctx.nowNanos issued ≤ BTC_CHALLENGE_TTL_SECS * NANOS_PER_SEC)
    (hsig : envFlag ctx.env "BTC_AUTH_TEST_SKIP_SIG" = true)
    (hbal : envFlag ctx.env "BTC_AUTH_TEST_SKIP_BALANCE" = true) :
    (bitcoin_verify ctx address sig st).1 =
      .ok (create_bitcoin_jwt ctx.nowSecs address [Role.user]) := by
  rw [bitcoin_verify_pending ctx address sig challenge issued st hpend]
  show verifyStep ctx address sig challenge issued = _
  rw [verifyStep_sig_passes ctx address sig challenge issued hfresh (Or.inl hsig)]
  simp [hbal]

/-- C5 amended witness. -/
theorem C5_amended_ambient_bypass_witness :
    envFlag ctxBypass.env "BTC_AUTH_TEST_SKIP_SIG" = true ∧
    envFlag ctxBypass.env "BTC_AUTH_TEST_SKIP_BALANCE" = true ∧
    (bitcoin_verify ctxBypass addrBoat "anything" stBoat).1 =
      .ok (create_bitcoin_jwt 0 addrBoat [Role.user]) :=
  ⟨by decide, by decide,
   C5_amended_ambient_bypass ctxBypass stBoat addrBoat "anything" "challenge-text" 0
     (by decide) (by decide) (by decide) (by decide)⟩

/-! ## C8 — the issued token: subject, role, expiry -/

/-- C8: whenever every enabled check passes, the issued token's subject is
the literal prefix `"btc:"` followed by the address (its own namespace), its
role list is exactly `[User]`, and its expiry is a fixed 24 hours past the
issuing clock. -/
theorem C8_token_shape (ctx : VerifyCtx) (st : ChallengeMap)
    (address sig challenge : String) (issued : Nat)
    (hpend : st address = some (challenge, issued))
    (hfresh : elapsedNanos ctx.nowNanos issued ≤ BTC_CHALLENGE_TTL_SECS * NANOS_PER_SEC)
    (hsig : envFlag ctx.env "BTC_AUTH_TEST_SKIP_SIG" = true ∨
      verify_bitcoin_message ctx.crypto address challenge sig = .ok ())
    (hbal : envFlag ctx.env "BTC_AUTH_TEST_SKIP_BALANCE" = true ∨
      (∃ sats, fetch_btc_balance_sats ctx.env ctx.world address = .ok sats ∧
        effectiveMinBalance ctx.env ≤ sats)) :
    (bitcoin_verify ctx address sig st).1 =
      .ok { sub := "btc:" ++ address, exp := ctx.nowSecs + 24 * 3600,
            roles := [Role.user] } := by
  rw [bitcoin_verify_pending ctx address sig challenge issued st hpend]
  show verifyStep ctx address sig challenge issued = _
  rw [verifyStep_sig_passes ctx address sig challenge issued hfresh hsig]
  rcases hbal with hbal | ⟨sats, hf, hge⟩
  · simp [hbal, create_bitcoin_jwt_eq]
  · cases hsb : envFlag ctx.env "BTC_AUTH_TEST_SKIP_BALANCE" <;>
      simp [hsb, hf, hge, create_bitcoin_jwt_eq]

/-- C8 witness. -/
theorem C8_token_shape_witness :
    (bitcoin_verify ctxBypass addrBoat "dummy" stBoat).1 =
      .ok { sub := "btc:" ++ addrBoat, exp := 0 + 24 * 3600, roles := [Role.user] } :=
  C8_token_shape ctxBypass stBoat addrBoat "dummy" "challenge-text" 0
    (by decide) (by decide) (Or.inl (by decide)) (Or.inl (by decide))

/-! ## C2 — what the challenge endpoint actually gates on -/

theorem verifyRecovered_scriptHash (env : CryptoEnv) (h : List Nat) (netw : Network)
    (isC : Bool) (pk : PubKey) :
    verifyRecovered env ⟨.scriptHash h, netw⟩ isC pk = .error .unsupportedAddrType := rfl

theorem verifyAfterHeader_scriptHash (env : CryptoEnv) (address msg : String)
    (recId : Nat) (isC : Bool) (sig64 : List Nat) (h : List Nat) (netw : Network)
    (hsh : addressFromStr address = some ⟨.scriptHash h, netw⟩) :
    verifyAfterHeader env address msg recId isC sig64 ≠ .ok () := by
  unfold verifyAfterHeader
  split
  · simp
  · cases hr : env.recover (signedDigest msg) sig64 recId with
    | none => simp
    | some pk => simp [hsh, verifyRecovered_scriptHash]

/-- A script-hash address never verifies, whatever the signature or the
crypto collaborators do. -/
theorem verify_scriptHash_never_ok (env : CryptoEnv) (address msg sig : String)
    (h : List Nat) (netw : Network)
    (hsh : addressFromStr address = some ⟨.scriptHash h, netw⟩) :
    verify_bitcoin_message env address msg sig ≠ .ok () := by
  unfold verify_bitcoin_message
  cases hd : env.b64decode sig with
  | none => simp
  | some raw =>
    show (if raw.length ≠ 65 then (Except.error VerifyErr.sigLength : Except VerifyErr Unit)
        else if raw.headD 0 < 27 ∨ raw.headD 0 > 34 then Except.error VerifyErr.badHeader
        else verifyAfterHeader env address msg ((raw.headD 0 - 27) &&& 3)
          (((raw.headD 0 - 27) &&& 4) != 0) (raw.drop 1)) ≠ Except.ok ()
    split_ifs with h65 hh
    · simp
    · simp
    · exact verifyAfterHeader_scriptHash env address msg _ _ _ h netw hsh

/-- C2 counterexample: the challenge endpoint does **not** reject every
address outside the two supported encodings.  The well-formed mainnet
script-hash (P2SH) address `3J98t1WpEZ73CNmQviecrnyiWrnqRhWNLy` parses (to a
`ScriptHash` payload, not P2PKH or P2WPKH), and `bitcoin_challenge` issues a
challenge for it instead of answering BadRequest. -/
theorem C2_counterexample_p2sh_gets_challenge :
    addressFromStr addrScript =
      some ⟨.scriptHash [0xb4, 0x72, 0xa2, 0x66, 0xd0, 0xbd, 0x89, 0xc1, 0x37, 0x06,
        0xa4, 0x13, 0x2c, 0xcf, 0xb1, 0x6f, 0x7c, 0x3b, 0x9f, 0xcb], .bitcoin⟩ ∧
    (bitcoin_challenge addrScript "00" 0 emptyChallenges).1 =
      .ok (challengeText addrScript "00") := by
  constructor
  · decide
  · decide

/-- C2 amended: `bitcoin_challenge` rejects as BadRequest exactly the
addresses `Address::from_str` cannot parse at all (besides the emptiness and
26–100-byte length gates); an address of an unsupported encoding that still
parses — e.g. script-hash — is accepted at challenge-request time and only
rejected later, at verification time, where a script-hash payload can never
verify regardless of the signature. -/
theorem C2_amended_parse_gate (payload_address nonce : String) (now : Nat)
    (st : ChallengeMap) (env : CryptoEnv) (msg sig saddr : String) (h : List Nat)
    (netw : Network)
    (hsh : addressFromStr saddr = some ⟨.scriptHash h, netw⟩) :
    (addressFromStr (rustTrim payload_address) = none →
      (bitcoin_challenge payload_address nonce now st).1 = .err .badRequest) ∧
    verify_bitcoin_message env saddr msg sig ≠ .ok () := by
  constructor
  · intro hnone
    unfold bitcoin_challenge
    split_ifs with h1 h2 h3
    · rfl
    · rfl
    · rfl
    · exact absurd (by simp [hnone]) h3
  · exact verify_scriptHash_never_ok env saddr msg sig h netw hsh

/-- C2 amended witness: an unparseable 29-byte string is rejected, while the
P2SH fixture address never verifies. -/
theorem C2_amended_parse_gate_witness :
    addressFromStr (rustTrim addrJunk) = none ∧
    (bitcoin_challenge addrJunk "00" 0 emptyChallenges).1 = .err .badRequest ∧
    addressFromStr addrScript =
      some ⟨.scriptHash [0xb4, 0x72, 0xa2, 0x66, 0xd0, 0xbd, 0x89, 0xc1, 0x37, 0x06,
        0xa4, 0x13, 0x2c, 0xcf, 0xb1, 0x6f, 0x7c, 0x3b, 0x9f, 0xcb], .bitcoin⟩ ∧
    verify_bitcoin_message cenvToy addrScript "m" "s" ≠ .ok () :=
  ⟨by decide,
   (C2_amended_parse_gate addrJunk "00" 0 emptyChallenges cenvToy "m" "s" addrScript
     [0xb4, 0x72, 0xa2, 0x66, 0xd0, 0xbd, 0x89, 0xc1, 0x37, 0x06,
      0xa4, 0x13, 0x2c, 0xcf, 0xb1, 0x6f, 0x7c, 0x3b, 0x9f, 0xcb] .bitcoin
     (by decide)).1 (by decide),
   by decide,
   (C2_amended_parse_gate addrJunk "00" 0 emptyChallenges cenvToy "m" "s" addrScript
     [0xb4, 0x72, 0xa2, 0x66, 0xd0, 0xbd, 0x89, 0xc1, 0x37, 0x06,
      0xa4, 0x13, 0x2c, 0xcf, 0xb1, 0x6f, 0x7c, 0x3b, 0x9f, 0xcb] .bitcoin
     (by decide)).2⟩

/-! ## C6 — signature envelope: 65 bytes, header 27..=34, derived recid/flag -/

/-- C6: verification fails unless the base64-decoded signature is exactly 65
bytes with header byte `h ∈ [27, 34]`; and when those hold, the verifier
continues with recovery index `(h−27) & 3` and compressed flag
`((h−27) & 4) ≠ 0`, the recovery index being exactly what is passed to
public-key recovery. -/
theorem C6_envelope_and_header (env : CryptoEnv) (address message sig_b64 : String) :
    (env.b64decode sig_b64 = none →
      verify_bitcoin_message env address message sig_b64 = .error .b64Decode) ∧
    (∀ raw, env.b64decode sig_b64 = some raw → raw.length ≠ 65 →
      verify_bitcoin_message env address message sig_b64 = .error .sigLength) ∧
    (∀ raw, env.b64decode sig_b64 = some raw → raw.length = 65 →
      (raw.headD 0 < 27 ∨ raw.headD 0 > 34) →
      verify_bitcoin_message env address message sig_b64 = .error .badHeader) ∧
    (∀ raw, env.b64decode sig_b64 = some raw → raw.length = 65 →
      27 ≤ raw.headD 0 → raw.headD 0 ≤ 34 →
      verify_bitcoin_message env address message sig_b64 =
        verifyAfterHeader env address message ((raw.headD 0 - 27) &&& 3)
          (((raw.headD 0 - 27) &&& 4) != 0) (raw.drop 1)) ∧
    (∀ recId isC sig64, env.parseCompactOk sig64 recId = true →
      env.recover (signedDigest message) sig64 recId = none →
      verifyAfterHeader env address message recId isC sig64 = .error .recoverFail) ∧
    (verify_bitcoin_message env address message sig_b64 = .ok () →
      ∃ raw, env.b64decode sig_b64 = some raw ∧ raw.length = 65 ∧
        27 ≤ raw.headD 0 ∧ raw.headD 0 ≤ 34) := by
  refine ⟨?_, ?_, ?_, ?_, ?_, ?_⟩
  · intro hd
    unfold verify_bitcoin_message
    rw [hd]
  · intro raw hd h65
    unfold verify_bitcoin_message
    rw [hd]
    exact if_pos h65
  · intro raw hd h65 hh
    unfold verify_bitcoin_message
    rw [hd]
    rw [show (match some raw with
        | none => (Except.error VerifyErr.b64Decode : Except VerifyErr Unit)
        | some raw =>
          if raw.length ≠ 65 then .error .sigLength
          else if raw.headD 0 < 27 ∨ raw.headD 0 > 34 then .error .badHeader
          else verifyAfterHeader env address message ((raw.headD 0 - 27) &&& 3)
            (((raw.headD 0 - 27) &&& 4) != 0) (raw.drop 1)) =
      (if raw.length ≠ 65 then .error .sigLength
       else if raw.headD 0 < 27 ∨ raw.headD 0 > 34 then .error .badHeader
       else verifyAfterHeader env address message ((raw.headD 0 - 27) &&& 3)
         (((raw.headD 0 - 27) &&& 4) != 0) (raw.drop 1)) from rfl]
    rw [if_neg (by simp [h65]), if_pos hh]
  · intro raw hd h65 h27 h34
    have hh : ¬ (raw.headD 0 < 27 ∨ raw.headD 0 > 34) := by
      push_neg
      exact ⟨h27, h34⟩
    unfold verify_bitcoin_message
    rw [hd]
    rw [show (match some raw with
        | none => (Except.error VerifyErr.b64Decode : Except VerifyErr Unit)
        | some raw =>
          if raw.length ≠ 65 then .error .sigLength
          else if raw.headD 0 < 27 ∨ raw.headD 0 > 34 then .error .badHeader
          else verifyAfterHeader env address message ((raw.headD 0 - 27) &&& 3)
            (((raw.headD 0 - 27) &&& 4) != 0) (raw.drop 1)) =
      (if raw.length ≠ 65 then .error .sigLength
       else if raw.headD 0 < 27 ∨ raw.headD 0 > 34 then .error .badHeader
       else verifyAfterHeader env address message ((raw.headD 0 - 27) &&& 3)
         (((raw.headD 0 - 27) &&& 4) != 0) (raw.drop 1)) from rfl]
    rw [if_neg (by simp [h65]), if_neg hh]
  · intro recId isC sig64 hpc hr
    simp [verifyAfterHeader, hpc, hr]
  · intro hok
    cases hd : env.b64decode sig_b64 with
    | none =>
      unfold verify_bitcoin_message at hok
      rw [hd] at hok
      simp at hok
    | some raw =>
      unfold verify_bitcoin_message at hok
      rw [hd] at hok
      have hok2 : (if raw.length ≠ 65 then (Except.error VerifyErr.sigLength : Except VerifyErr Unit)
          else if raw.headD 0 < 27 ∨ raw.headD 0 > 34 then .error .badHeader
          else verifyAfterHeader env address message ((raw.headD 0 - 27) &&& 3)
            (((raw.headD 0 - 27) &&& 4) != 0) (raw.drop 1)) = .ok () := hok
      by_cases h65 : raw.length ≠ 65
      · rw [if_pos h65] at hok2
        simp at hok2
      · rw [if_neg h65] at hok2
        by_cases hh : raw.headD 0 < 27 ∨ raw.headD 0 > 34
        · rw [if_pos hh] at hok2
          simp at hok2
        · push_neg at h65 hh
          exact ⟨raw, rfl, h65, hh.1, hh.2⟩

/-! ## C7 — the signing preimage and its length-prefix scheme -/

/-- C7: the preimage is the single-byte-length-prefixed magic literal
(24 bytes, always below 253) followed by the length-prefixed message, a
single byte for message lengths under 253; the signed digest is
SHA256(SHA256(preimage)); and for lengths ≥ 253 `ser_varint` departs from
the conventional variable-length integer encoding, always emitting the 253
marker plus a fixed 3-byte little-endian field. -/
theorem C7_preimage_and_varint (m : String) (n : Nat)
    (hm : (utf8Bytes m).length < 253) (hn : 253 ≤ n) :
    msgPreimage m = 24 :: (utf8Bytes MAGIC ++ ((utf8Bytes m).length :: utf8Bytes m)) ∧
    (utf8Bytes MAGIC).length = 24 ∧
    signedDigest m = sha256 (sha256 (msgPreimage m)) ∧
    ser_varint n = [253, n &&& 255, (n >>> 8) &&& 255, (n >>> 16) &&& 255] ∧
    (ser_varint n).length = 4 ∧
    ser_varint n ≠ stdVarint n := by
  have hmagic : (utf8Bytes MAGIC).length = 24 := by decide
  have hser : ser_varint (utf8Bytes m).length = [(utf8Bytes m).length] := by
    unfold ser_varint
    rw [if_pos hm]
  have hbig : ser_varint n = [253, n &&& 255, (n >>> 8) &&& 255, (n >>> 16) &&& 255] := by
    unfold ser_varint
    rw [if_neg (Nat.not_lt.mpr hn)]
  refine ⟨?_, hmagic, rfl, hbig, by rw [hbig]; rfl, ?_⟩
  · unfold msgPreimage
    rw [hser, hmagic]
    simp
  · intro heq
    have hlen := congrArg List.length heq
    rw [hbig] at hlen
    unfold stdVarint at hlen
    rw [if_neg (Nat.not_lt.mpr hn)] at hlen
    by_cases h16 : n < 65536
    · rw [if_pos h16] at hlen
      simp at hlen
    · rw [if_neg h16] at hlen
      by_cases h32 : n < 4294967296
      · rw [if_pos h32] at hlen
        simp at hlen
      · rw [if_neg h32] at hlen
        simp at hlen

/-- C7 witness: a 3-byte message and the length 300. -/
theorem C7_preimage_and_varint_witness :
    (utf8Bytes "abc").length < 253 ∧ 253 ≤ 300 ∧
    msgPreimage "abc" = 24 :: (utf8Bytes MAGIC ++ ((utf8Bytes "abc").length :: utf8Bytes "abc")) ∧
    ser_varint 300 ≠ stdVarint 300 :=
  ⟨by decide, by decide,
   (C7_preimage_and_varint "abc" 300 (by decide) (by decide)).1,
   (C7_preimage_and_varint "abc" 300 (by decide) (by decide)).2.2.2.2.2⟩

/-! ## C9 — a successful primary response is summed, malformed parts count 0 -/

/-- C9: when no balance override is set and the primary UTXO endpoint answers
with a success status and a JSON body, the fetch returns the sum of the
entries' u64 `value` fields — whatever the fallback service would have said
(no fallback attempt, no error).  A body that is not a JSON array sums to 0,
as does every entry whose `value` field is missing or not a u64; and with the
default threshold such a zero balance surfaces as `InsufficientFunds` from
`bitcoin_verify`. -/
theorem C9_primary_success_sums (env : EnvMap) (world : HttpWorld) (address : String)
    (j : Json)
    (hov : envVar env "BTC_AUTH_TEST_BALANCE_OVERRIDE" = none)
    (hpr : world.primary = .resp true (.ok j)) :
    fetch_btc_balance_sats env world address = .ok (sumUtxos j) ∧
    (∀ fb, fetch_btc_balance_sats env ⟨world.primary, fb⟩ address = .ok (sumUtxos j)) ∧
    (Json.asArray j = none → sumUtxos j = 0) ∧
    (∀ entries, j = .arr entries →
      sumUtxos j = entries.foldl (fun total u => (total + utxoValue u) % U64MOD) 0) ∧
    (∀ u : Json, (u.getField "value").bind Json.asU64 = none → utxoValue u = 0) ∧
    (∀ (ctx : VerifyCtx) (st : ChallengeMap) (sig challenge : String) (issued : Nat),
      ctx.env = env → ctx.world = world →
      st address = some (challenge, issued) →
      elapsedNanos ctx.nowNanos issued ≤ BTC_CHALLENGE_TTL_SECS * NANOS_PER_SEC →
      envFlag env "BTC_AUTH_TEST_SKIP_SIG" = true →
      envFlag env "BTC_AUTH_TEST_SKIP_BALANCE" = false →
      envVar env "BTC_MIN_BALANCE_SATS" = none →
      Json.asArray j = none →
      (bitcoin_verify ctx address sig st).1 = .err .insufficientFunds) := by
  have hmain : fetch_btc_balance_sats env world address = .ok (sumUtxos j) := by
    rcases world with ⟨p, f⟩
    simp only at hpr
    subst hpr
    simp [fetch_btc_balance_sats, hov]
  refine ⟨hmain, ?_, ?_, ?_, ?_, ?_⟩
  · intro fb
    simp [fetch_btc_balance_sats, hov, hpr]
  · intro hna
    simp [sumUtxos, hna]
  · intro entries hj
    subst hj
    rfl
  · intro u hu
    simp [utxoValue, hu]
  · intro ctx st sig challenge issued henv hworld hpend hfresh hsig hbal hmin hna
    have h0 : sumUtxos j = 0 := by simp [sumUtxos, hna]
    rw [bitcoin_verify_pending ctx address sig challenge issued st hpend]
    show verifyStep ctx address sig challenge issued = _
    rw [verifyStep_sig_passes ctx address sig challenge issued hfresh
      (Or.inl (by rw [henv]; exact hsig))]
    have hf2 : fetch_btc_balance_sats env ctx.world address = .ok 0 := by
      rw [hworld, hmain, h0]
    have hme2 : effectiveMinBalance env = 1000000 := by
      simp [effectiveMinBalance, hmin, BTC_MIN_BALANCE_SATS]
    rw [henv, hbal]
    simp [hf2, hme2]

/-- C9 witness: a success response whose body is JSON but not an array. -/
theorem C9_primary_success_sums_witness :
    envVar ctxBalanceNonArray.env "BTC_AUTH_TEST_BALANCE_OVERRIDE" = none ∧
    ctxBalanceNonArray.world.primary = .resp true (.ok .other) ∧
    fetch_btc_balance_sats ctxBalanceNonArray.env ctxBalanceNonArray.world addrBoat =
      .ok (sumUtxos .other) ∧
    sumUtxos Json.other = 0 ∧
    (bitcoin_verify ctxBalanceNonArray addrBoat "x" stBoat).1 = .err .insufficientFunds :=
  ⟨by decide, rfl,
   (C9_primary_success_sums ctxBalanceNonArray.env ctxBalanceNonArray.world addrBoat .other
     (by decide) rfl).1,
   (C9_primary_success_sums ctxBalanceNonArray.env ctxBalanceNonArray.world addrBoat .other
     (by decide) rfl).2.2.1 rfl,
   (C9_primary_success_sums ctxBalanceNonArray.env ctxBalanceNonArray.world addrBoat .other
     (by decide) rfl).2.2.2.2.2 ctxBalanceNonArray stBoat "x" "challenge-text" 0
     rfl rfl (by decide) (by decide) (by decide) (by decide) (by decide) rfl⟩

/-! ## C10 — a clock that moved backward never expires a challenge -/

/-- C10: when the stored challenge's `issued_at` lies in the future of the
current `SystemTime` clock, `SystemTime::elapsed` fails, `unwrap_or_default`
makes the age zero, and `bitcoin_verify` therefore never answers 410
Gone/Expired for such a challenge (the check is total — no panic). -/
theorem C10_backward_clock_age_zero (ctx : VerifyCtx) (st : ChallengeMap)
    (address sig challenge : String) (issued : Nat)
    (hpend : st address = some (challenge, issued))
    (hfut : ctx.nowNanos < issued) :
    elapsedNanos ctx.nowNanos issued = 0 ∧
    (bitcoin_verify ctx address sig st).1 ≠ .gone := by
  have h0 : elapsedNanos ctx.nowNanos issued = 0 := by
    unfold elapsedNanos
    rw [if_neg (Nat.not_le.mpr hfut)]
  refine ⟨h0, ?_⟩
  rw [bitcoin_verify_pending ctx address sig challenge issued st hpend]
  exact verifyStep_fresh_not_gone ctx address sig challenge issued (by simp [h0])

/-- C10 witness: challenge issued at 10^12 ns, clock at 5 ns. -/
theorem C10_backward_clock_age_zero_witness :
    stFuture addrBoat = some ("challenge-text", 1000000000000) ∧
    ctxClockBack.nowNanos < 1000000000000 ∧
    elapsedNanos ctxClockBack.nowNanos 1000000000000 = 0 ∧
    (bitcoin_verify ctxClockBack addrBoat "dummy" stFuture).1 ≠ .gone :=
  ⟨by decide, by decide,
   (C10_backward_clock_age_zero ctxClockBack stFuture addrBoat "dummy" "challenge-text"
     1000000000000 (by decide) (by decide)).1,
   (C10_backward_clock_age_zero ctxClockBack stFuture addrBoat "dummy" "challenge-text"
     1000000000000 (by decide) (by decide)).2⟩

end Rib
